import Mathlib

/-!
Verification development for the WhatsApp ingestion/coordination pipeline
(`src/main.py`, `src/nodes/rate_limiter.py`, `src/nodes/message_handler.py`,
`src/nodes/redis_client.py`).

Each definition is a shallow embedding of the corresponding Python function.
Stateful code is embedded as explicit state passing: every operation takes
the relevant store (asyncio queue, dedup dict, Firestore document, in-memory
counter dict, Redis debounce lock / pending list) and returns the updated
store together with its result.
-/

namespace WhatsAppBot

/-! ## Ingestion queue (`asyncio.Queue` semantics, `src/main.py`)

`main.py` creates `asyncio.Queue(maxsize=_QUEUE_MAX)` with `_QUEUE_MAX = 500`.
Per asyncio semantics: `full()` is true iff `maxsize > 0` and
`qsize() >= maxsize`; `await put(item)` suspends the awaiting coroutine while
the queue is full and never raises `QueueFull`; only `put_nowait` raises
`QueueFull`.
-/

/-- A queue item as enqueued by `_handle_webhook`: raw payload bytes plus the
HMAC signature header string. -/
structure QItem where
  payload : List Nat
  hmacSig : String
deriving DecidableEq, Repr

/-- Embedding of `asyncio.Queue`: FIFO list of items plus `maxsize`. -/
structure AQueue where
  items : List QItem
  maxsize : Nat
deriving DecidableEq, Repr

/-- `_QUEUE_MAX = 500` from `main.py`. -/
def QUEUE_MAX : Nat := 500

/-- `asyncio.Queue.full()`: true iff `maxsize > 0` and `qsize() >= maxsize`. -/
def AQueue.full (q : AQueue) : Bool :=
  decide (0 < q.maxsize) && decide (q.maxsize ≤ q.items.length)

/-- Result of `await queue.put(item)`: either the put completes with the item
appended, or the awaiting coroutine suspends because the queue is full.
`await put` never raises `asyncio.QueueFull`. -/
inductive PutAwaitResult where
  | completed (q : AQueue)
  | suspended
deriving DecidableEq, Repr

/-- Embedding of `await queue.put(item)`. -/
def AQueue.putAwait (q : AQueue) (x : QItem) : PutAwaitResult :=
  if q.full then .suspended else .completed ⟨q.items ++ [x], q.maxsize⟩

/-- Outcome of the background task `_enqueue_webhook` (`main.py:528`).
`droppedLoggedFull q` is the outcome of the `except asyncio.QueueFull`
branch (`main.py:533`), which logs and drops the payload leaving the queue
as `q`. -/
inductive EnqueueResult where
  | enqueued (q : AQueue)
  | suspendedOnFullQueue
  | droppedLoggedFull (q : AQueue)
deriving DecidableEq, Repr

/-- Embedding of `_enqueue_webhook` (`main.py:528`): it runs
`await _queue.put((payload, hmac_sig))`.  Since `await put` suspends on a
full queue and never raises `QueueFull`, the embedding can never produce
`droppedLoggedFull`. -/
def enqueue_webhook (q : AQueue) (item : QItem) : EnqueueResult :=
  match q.putAwait item with
  | .completed q1 => .enqueued q1
  | .suspended => .suspendedOnFullQueue

/-! ## Raw ASGI webhook intercept (`WebhookInterceptASGI._handle_webhook`) -/

/-- An HTTP response as produced by the handlers. -/
structure HttpResponse where
  status : Nat
  contentType : String
  body : String
deriving DecidableEq, Repr

/-- `_OK_RESPONSE_BODY = b'\x7b"status":"ok"\x7d'` from `main.py:84`. -/
def OK_RESPONSE_BODY : String := "\x7b\"status\":\"ok\"\x7d"

/-- Effect of step 3 of `_handle_webhook` (`main.py:501`): the enqueue task
is spawned only when not shutting down and the queue exists; a failure of
`asyncio.create_task` is swallowed by `except Exception: pass`. -/
inductive EnqueueEffect where
  | notSpawned
  | spawned (r : EnqueueResult)
deriving DecidableEq, Repr

/-- Embedding of `WebhookInterceptASGI._handle_webhook` (`main.py:479`)
after the body has been read: decides whether the background enqueue task is
spawned (and with what outcome, given the current queue) and produces the
response.  Steps 4 (`main.py:509`) run unconditionally after the
`try/except` of step 3. -/
def handle_webhook (shuttingDown queueReady spawnOk : Bool)
    (q : AQueue) (item : QItem) : HttpResponse × EnqueueEffect :=
  let eff :=
    if !shuttingDown && queueReady && spawnOk then
      EnqueueEffect.spawned (enqueue_webhook q item)
    else
      EnqueueEffect.notSpawned
  (⟨200, "application/json", OK_RESPONSE_BODY⟩, eff)

/-! ## GET /webhook verification handshake (`webhook_verify`, `main.py:544`) -/

/-- Response of `webhook_verify`: either `PlainTextResponse(challenge, 200)`
or `JSONResponse(\x7b"error":"Forbidden"\x7d, 403)`. -/
structure VerifyResponse where
  status : Nat
  body : String
  isPlainText : Bool
deriving DecidableEq, Repr

/-- Body of the 403 response of `webhook_verify`. -/
def FORBIDDEN_BODY : String := "\x7b\"error\":\"Forbidden\"\x7d"

/-- Embedding of `webhook_verify` (`main.py:544`).  The query parameters
`hub.mode`, `hub.verify_token` and `hub.challenge` default to the empty
string; `configToken` is `config.WHATSAPP_VERIFY_TOKEN`. -/
def webhook_verify (mode token challenge configToken : String) : VerifyResponse :=
  if mode = "subscribe" ∧ token = configToken then
    ⟨200, challenge, true⟩
  else
    ⟨403, FORBIDDEN_BODY, false⟩

/-! ## Dedup cache (`_is_duplicate`, `main.py:87`)

`_processed_messages : dict[str, float]` maps a message id to its
first-seen monotonic time.  CPython dicts preserve insertion order, so the
dict is embedded as an association list with new keys appended at the end.
Time is embedded as `Nat` (monotonic clock readings).
-/

/-- `_DEDUP_TTL = 300` from `main.py:64`. -/
def DEDUP_TTL : Nat := 300

/-- The lazy-cleanup size ceiling (`len(_processed_messages) > 2000`,
`main.py:99`). -/
def DEDUP_CEILING : Nat := 2000

/-- The dedup cache: message id paired with first-seen time, in insertion
order. -/
abbrev DedupCache := List (String × Nat)

/-- Whether `message_id in _processed_messages`. -/
def hasId (cache : DedupCache) (msgId : String) : Bool :=
  cache.any (fun kt => kt.1 == msgId)

/-- The lazy cleanup at `main.py:99`: when the dict holds more than 2000
entries, delete every entry with `now - t > _DEDUP_TTL` (i.e. keep entries
with `now - t ≤ 300`). -/
def dedupCleanup (cache : DedupCache) (now : Nat) : DedupCache :=
  if DEDUP_CEILING < cache.length then
    cache.filter (fun kt => decide (now - kt.2 ≤ DEDUP_TTL))
  else
    cache

/-- Embedding of `_is_duplicate` (`main.py:87`): returns the boolean result
together with the updated cache.  An empty id returns `False` immediately,
before cleanup and without registering anything. -/
def is_duplicate (cache : DedupCache) (msgId : String) (now : Nat) :
    Bool × DedupCache :=
  if msgId = "" then
    (false, cache)
  else
    let c := dedupCleanup cache now
    if hasId c msgId then (true, c) else (false, c ++ [(msgId, now)])

/-! ## Worker per-message decision (`_queue_worker`, `main.py:273`) -/

/-- Message types skipped by the worker (`main.py:279`). -/
def ignoredTypes : List String :=
  ["reaction", "system", "ephemeral", "unsupported", "request_welcome"]

/-- What the worker does with one parsed message. -/
inductive WorkerAction where
  | skipIgnoredType
  | skipDuplicate
  | dispatch
deriving DecidableEq, Repr

/-- Embedding of the per-message branch of `_queue_worker`
(`main.py:273-308`): skip ignorable types; skip (and log) duplicates; else
register the id and spawn a tracked processing task. -/
def worker_decide (cache : DedupCache) (msgType msgId : String) (now : Nat) :
    WorkerAction × DedupCache :=
  if ignoredTypes.contains msgType then
    (.skipIgnoredType, cache)
  else
    let r := is_duplicate cache msgId now
    if r.1 then (.skipDuplicate, r.2) else (.dispatch, r.2)

/-! ## Rate limiter (`src/nodes/rate_limiter.py`)

The Firestore document for a sender holds `lastInteractionDate`,
`dailyMessageCount` and `totalMessageCount`; the in-memory fallback entry
holds `date` and `count`.  Python ints are embedded as `Int`.
-/

/-- A Firestore rate-counter document (`users-whatsapp` collection). -/
structure FsRecord where
  lastInteractionDate : String
  dailyMessageCount : Int
  totalMessageCount : Int
deriving DecidableEq, Repr

/-- An entry of the in-memory fallback dict `_memory_counts`. -/
structure MemEntry where
  date : String
  count : Int
deriving DecidableEq, Repr

/-- The partial workflow state returned by `save_message_count`. -/
structure CountResult where
  daily_count : Int
  is_new_user : Bool
  is_reset_command : Bool
deriving DecidableEq, Repr

/-- Embedding of `_memory_increment` (`rate_limiter.py:148`): if the entry
is absent or its date differs from today, store `(today, 1)`; otherwise
increment the count — there is no limit check on this path. -/
def memory_increment (entry : Option MemEntry) (today : String) :
    Option MemEntry × Int :=
  match entry with
  | none => (some ⟨today, 1⟩, 1)
  | some e =>
    if e.date ≠ today then (some ⟨today, 1⟩, 1)
    else (some ⟨e.date, e.count + 1⟩, e.count + 1)

/-- Embedding of `_save_to_firestore` (`rate_limiter.py:218`) on its
non-exception path, acting on the sender's document (`none` when the
document does not exist).  Returns the updated document and the returned
workflow-state fields. -/
def save_to_firestore (doc : Option FsRecord) (today : String) (limit : Int)
    (is_reset : Bool) : Option FsRecord × CountResult :=
  if is_reset then
    -- /reset: both the exists and the not-exists branch write
    -- \x7bdaily: 0, total: 0, date: today\x7d and bypass the limit check.
    (some ⟨today, 0, 0⟩, ⟨0, false, true⟩)
  else
    match doc with
    | none =>
      -- Case A: first access — create the document.
      (some ⟨today, 1, 1⟩, ⟨1, true, false⟩)
    | some data =>
      let is_new_user := data.totalMessageCount == 0
      if today ≠ data.lastInteractionDate then
        -- Case B: new day — reset daily, Increment(1) on total.
        (some ⟨today, 1, data.totalMessageCount + 1⟩, ⟨1, is_new_user, false⟩)
      else if limit ≤ data.dailyMessageCount then
        -- Case D: limit already reached — do not update the store.
        (some data, ⟨data.dailyMessageCount, is_new_user, false⟩)
      else
        -- Case C: within the limit — Increment(1) on both counters.
        (some ⟨data.lastInteractionDate, data.dailyMessageCount + 1,
               data.totalMessageCount + 1⟩,
         ⟨data.dailyMessageCount + 1, is_new_user, false⟩)

/-- Python `str.strip` whitespace characters (the ASCII ones). -/
def isPyWhitespace (c : Char) : Bool :=
  c == ' ' || c == '\t' || c == '\n' || c == '\r' || c == '\x0b' || c == '\x0c'

/-- Embedding of Python `str.strip()`: drop leading and trailing
whitespace. -/
def pyStrip (s : String) : String :=
  String.mk (((s.data.dropWhile isPyWhitespace).reverse.dropWhile
    isPyWhitespace).reverse)

/-- Embedding of Python `str.lower()` (ASCII case folding suffices for the
command comparison). -/
def pyLower (s : String) : String :=
  String.mk (s.data.map Char.toLower)

/-- Whether `mensagem.strip().lower() == "/reset"` (`rate_limiter.py:177`). -/
def isResetMessage (mensagem : String) : Bool :=
  pyLower (pyStrip mensagem) == "/reset"

/-- Embedding of `save_message_count` (`rate_limiter.py:165`) when Firestore
is available: empty phone returns `(0, false, false)` without touching the
store; otherwise delegate to `_save_to_firestore`. -/
def save_message_count_fs (phone mensagem : String) (limit : Int)
    (doc : Option FsRecord) (today : String) : Option FsRecord × CountResult :=
  if phone = "" then (doc, ⟨0, false, false⟩)
  else save_to_firestore doc today limit (isResetMessage mensagem)

/-- Embedding of `save_message_count` (`rate_limiter.py:165`) on the
in-memory fallback path (Firestore unavailable): empty phone returns
`(0, false, false)` without touching the store; `/reset` pops the entry;
otherwise `_memory_increment`. -/
def save_message_count_memory (phone mensagem : String) (_limit : Int)
    (entry : Option MemEntry) (today : String) : Option MemEntry × CountResult :=
  if phone = "" then (entry, ⟨0, false, false⟩)
  else if isResetMessage mensagem then (none, ⟨0, false, true⟩)
  else
    let r := memory_increment entry today
    (r.1, ⟨r.2, false, false⟩)

/-- Embedding of `check_rate_limit` (`rate_limiter.py:321`): returns the
`rate_limited` flag.  Empty phone is released; otherwise blocked iff
`daily_count >= limit`. -/
def check_rate_limit (phone : String) (daily_count limit : Int) : Bool :=
  if phone = "" then false else decide (limit ≤ daily_count)

/-! ## Debounce/lock coordinator
(`_handle_message_with_debounce`, `message_handler.py:380`;
`set_debounce_lock` / `get_debounce_lock` / `clear_debounce_lock`,
`redis_client.py:131-147`;
`add_pending_message` / `get_and_clear_pending_messages`,
`redis_client.py:85-113`)

Per-sender Redis state: the debounce lock (`SET` overwrites, `GET` returns
`None` when absent) and the pending-message list (`RPUSH` appends;
`LRANGE`+`DELETE` in one transaction drains atomically).  A debounce task
for one message runs phase 1 (append pending, store a fresh token as the
lock), sleeps `MESSAGE_DEBOUNCE_SECONDS`, then runs phase 2 (re-read the
lock and compare with its own token).
-/

/-- Per-sender Redis state used by the debounce protocol. -/
structure SenderState where
  lock : Option String
  pending : List String
deriving DecidableEq, Repr

/-- Phase 1 of `_handle_message_with_debounce` (`message_handler.py:391` and
`:402-403`): `add_pending_message` (RPUSH appends) followed by
`set_debounce_lock` (SET overwrites the token unconditionally). -/
def debounce_phase1 (s : SenderState) (msg tok : String) : SenderState :=
  ⟨some tok, s.pending ++ [msg]⟩

/-- Phase 2 of `_handle_message_with_debounce` (`message_handler.py:409-426`),
after the sleep: `get_debounce_lock` and compare with this task's token.
On mismatch (including an absent/expired lock) the task returns with no
state change (`none`).  On match it clears the lock and atomically drains
the pending list, firing with the drained batch
(`some (state after, batch)`). -/
def debounce_phase2 (s : SenderState) (tok : String) :
    Option (SenderState × List String) :=
  if s.lock = some tok then some (⟨none, []⟩, s.pending) else none

/-- A burst of messages from one sender: each message's debounce task runs
its phase 1 in arrival order (message text paired with that task's fresh
token). -/
def burst_phase1 (s : SenderState) (burst : List (String × String)) : SenderState :=
  burst.foldl (fun t mt => debounce_phase1 t mt.1 mt.2) s

/-- The deferred phase-2 attempts of the burst's tasks, in the order their
sleeps expire; returns the final state and how many tasks fired. -/
def burst_phase2 : SenderState → List String → SenderState × Nat
  | s, [] => (s, 0)
  | s, tok :: rest =>
    match debounce_phase2 s tok with
    | some (s1, _) =>
      let r := burst_phase2 s1 rest
      (r.1, r.2 + 1)
    | none => burst_phase2 s rest

/-! ## Theorems -/

set_option maxRecDepth 4096

/-- C1: the claim says an enqueue against a full queue does not block,
drops the new item and logs a warning.  The code (`_enqueue_webhook`,
`main.py:528`) awaits `queue.put`, which suspends on a full queue and never
raises `asyncio.QueueFull`, so the `except asyncio.QueueFull`
drop-and-log branch (`main.py:533`) is unreachable: at the failing input
(a queue holding `_QUEUE_MAX = 500` items with workers not draining) the
enqueue task suspends, and no input can ever produce the dropped-and-logged
outcome. -/
theorem C1_full_queue_put_suspends :
    enqueue_webhook ⟨List.replicate QUEUE_MAX ⟨[], ""⟩, QUEUE_MAX⟩ ⟨[1], "x"⟩
      = .suspendedOnFullQueue
    ∧ ∀ (q q1 : AQueue) (item : QItem),
        enqueue_webhook q item ≠ .droppedLoggedFull q1 := by
  constructor
  · decide
  · intro q q1 item
    unfold enqueue_webhook
    cases q.putAwait item <;> simp

/-- C1 witness: the unreachability conjunct applied at a concrete queue and
item. -/
theorem C1_full_queue_put_suspends_witness :
    enqueue_webhook ⟨[], QUEUE_MAX⟩ ⟨[1], "x"⟩
      ≠ .droppedLoggedFull ⟨[], QUEUE_MAX⟩ :=
  C1_full_queue_put_suspends.2 ⟨[], QUEUE_MAX⟩ ⟨[], QUEUE_MAX⟩ ⟨[1], "x"⟩

/-- C2: for every POST /webhook request — for every combination of shutdown
flag, queue readiness, spawn success and queue contents — the ASGI
intercept responds with status 200 and the fixed body
`\x7b"status":"ok"\x7d` (whose length matches the hardcoded
content-length 15); the response component of `_handle_webhook` does not
depend on the enqueue outcome. -/
theorem C2_webhook_always_200 :
    (∀ (shuttingDown queueReady spawnOk : Bool) (q : AQueue) (item : QItem),
      (handle_webhook shuttingDown queueReady spawnOk q item).1
        = ⟨200, "application/json", OK_RESPONSE_BODY⟩)
    ∧ OK_RESPONSE_BODY.length = 15 := by
  constructor
  · intro shuttingDown queueReady spawnOk q item
    rfl
  · rfl

/-- C3 counterexample: with mode left empty and the verify token exactly
equal to the configured secret, `webhook_verify` returns 403, not 200 with
the challenge — refuting the claim that a matching token alone yields the
challenge. -/
theorem C3_counterexample :
    (webhook_verify "" "sekret" "challenge-123" "sekret").status = 403
    ∧ "sekret" = "sekret" := by
  constructor
  · rfl
  · rfl

/-- C3 (amended): for every GET /webhook request, the handler returns the
challenge as plain text with status 200 iff the mode parameter equals
"subscribe" AND the verify token equals the configured secret; in every
other case it returns 403. -/
theorem C3_verify_handshake (mode token challenge secret : String) :
    (mode = "subscribe" ∧ token = secret →
      webhook_verify mode token challenge secret = ⟨200, challenge, true⟩)
    ∧ (¬ (mode = "subscribe" ∧ token = secret) →
      webhook_verify mode token challenge secret = ⟨403, FORBIDDEN_BODY, false⟩) := by
  constructor
  · intro h
    unfold webhook_verify
    rw [if_pos h]
  · intro h
    unfold webhook_verify
    rw [if_neg h]

/-- C3 witness: the handshake theorem applied on the success side and on a
failing-mode side at concrete inputs. -/
theorem C3_verify_handshake_witness :
    webhook_verify "subscribe" "tok" "ch" "tok"
      = ⟨200, "ch", true⟩
    ∧ webhook_verify "bad" "tok" "ch" "tok"
      = ⟨403, FORBIDDEN_BODY, false⟩ :=
  ⟨(C3_verify_handshake "subscribe" "tok" "ch" "tok").1 ⟨rfl, rfl⟩,
   (C3_verify_handshake "bad" "tok" "ch" "tok").2 (by decide)⟩

/-- C10: for every workflow state with an empty sender phone number,
`save_message_count` returns daily count 0 with both flags false and leaves
the store untouched (on the Firestore path and on the in-memory fallback
path alike), and `check_rate_limit` releases the message regardless of the
daily count. -/
theorem C10_empty_phone_never_limited :
    ∀ (mensagem : String) (limit : Int) (doc : Option FsRecord)
      (entry : Option MemEntry) (today : String) (daily : Int),
      save_message_count_fs "" mensagem limit doc today = (doc, ⟨0, false, false⟩)
      ∧ save_message_count_memory "" mensagem limit entry today
          = (entry, ⟨0, false, false⟩)
      ∧ check_rate_limit "" daily limit = false := by
  intro mensagem limit doc entry today daily
  refine ⟨?_, ?_, ?_⟩ <;>
    simp [save_message_count_fs, save_message_count_memory, check_rate_limit]

/-- C4 counterexample: a sender whose in-memory fallback entry has today's
date and count 5 at daily limit 5 is NOT left unchanged by the counting
operation: `_memory_increment` has no limit check, so the stored count is
mutated to 6 — refuting the claim's no-mutation guarantee on the fallback
path. -/
theorem C4_counterexample :
    (5 : Int) ≤ 5
    ∧ save_message_count_memory "5511999999999" "oi" 5
        (some ⟨"2026-10-12", 5⟩) "2026-10-12"
        = (some ⟨"2026-10-12", 6⟩, ⟨6, false, false⟩)
    ∧ (some (MemEntry.mk "2026-10-12" 6) ≠ some (MemEntry.mk "2026-10-12" 5)) := by
  refine ⟨le_refl 5, ?_, by decide⟩
  rfl

/-- C4 (amended): for a sender whose record has today's date and a daily
count at or above the limit, on the durable-store path the counting
operation leaves the document unchanged and the check reports blocked; on
the in-memory fallback path the stored count IS incremented by one (the
fallback has no limit check), but the sender is still reported blocked
because the returned count stays at or above the limit. -/
theorem C4_at_limit_same_day (phone mensagem today : String)
    (daily total c limit : Int)
    (hp : phone ≠ "") (hr : isResetMessage mensagem = false)
    (hd : limit ≤ daily) (hc : limit ≤ c) :
    (save_message_count_fs phone mensagem limit (some ⟨today, daily, total⟩) today
        = (some ⟨today, daily, total⟩, ⟨daily, total == 0, false⟩)
      ∧ check_rate_limit phone daily limit = true)
    ∧ (save_message_count_memory phone mensagem limit (some ⟨today, c⟩) today
        = (some ⟨today, c + 1⟩, ⟨c + 1, false, false⟩)
      ∧ check_rate_limit phone (c + 1) limit = true) := by
  refine ⟨⟨?_, ?_⟩, ⟨?_, ?_⟩⟩
  · simp [save_message_count_fs, save_to_firestore, hp, hr, hd]
  · simp [check_rate_limit, hp, hd]
  · simp [save_message_count_memory, memory_increment, hp, hr]
  · have : limit ≤ c + 1 := le_trans hc (by omega)
    simp [check_rate_limit, hp, this]

/-- C4 witness: the amended theorem at a concrete blocked sender (limit 5,
stored daily 5 on today's date; fallback count 5). -/
theorem C4_at_limit_same_day_witness :
    (save_message_count_fs "5511999999999" "oi" 5
        (some ⟨"2026-10-12", 5, 9⟩) "2026-10-12"
        = (some ⟨"2026-10-12", 5, 9⟩, ⟨5, (9 : Int) == 0, false⟩)
      ∧ check_rate_limit "5511999999999" 5 5 = true)
    ∧ (save_message_count_memory "5511999999999" "oi" 5
        (some ⟨"2026-10-12", 5⟩) "2026-10-12"
        = (some ⟨"2026-10-12", 6⟩, ⟨6, false, false⟩)
      ∧ check_rate_limit "5511999999999" 6 5 = true) :=
  C4_at_limit_same_day "5511999999999" "oi" "2026-10-12" 5 9 5 5
    (by decide) (by decide) (by decide) (by decide)

/-- C5 counterexample: with daily limit 1, a sender at the limit on day
2026-10-11 sends on 2026-10-12; the rollover does reset daily to 1,
increment lifetime and update the date, but `check_rate_limit` still blocks
the message (1 >= 1), so no more messages are allowed on the new day —
refuting the claim's "exactly one more message is allowed". -/
theorem C5_counterexample :
    save_message_count_fs "5511999999999" "oi" 1
        (some ⟨"2026-10-11", 1, 3⟩) "2026-10-12"
      = (some ⟨"2026-10-12", 1, 4⟩, ⟨1, false, false⟩)
    ∧ check_rate_limit "5511999999999" 1 1 = true := by
  constructor
  · rfl
  · decide

/-- C5 (amended): for every sender whose record has a stored date different
from today, the counting operation resets the daily count to 1, increments
the lifetime count by 1 and updates the stored date to today; the first
message of the new day then passes the rate-limit check exactly when the
daily limit is greater than 1 (the check blocks whenever count >= limit). -/
theorem C5_rollover (phone mensagem d today : String) (daily total limit : Int)
    (hp : phone ≠ "") (hr : isResetMessage mensagem = false) (hdate : d ≠ today) :
    save_message_count_fs phone mensagem limit (some ⟨d, daily, total⟩) today
      = (some ⟨today, 1, total + 1⟩, ⟨1, total == 0, false⟩)
    ∧ (check_rate_limit phone 1 limit = false ↔ 1 < limit) := by
  constructor
  · have hdate1 : today ≠ d := Ne.symm hdate
    simp [save_message_count_fs, save_to_firestore, hp, hr, hdate1]
  · simp [check_rate_limit, hp]

/-- C5 witness: the rollover theorem at a concrete sender at limit 5 with
stored daily 5 on the previous day; the new-day message passes the check
since 1 < 5. -/
theorem C5_rollover_witness :
    save_message_count_fs "5511999999999" "oi" 5
        (some ⟨"2026-10-11", 5, 9⟩) "2026-10-12"
      = (some ⟨"2026-10-12", 1, 10⟩, ⟨1, (9 : Int) == 0, false⟩)
    ∧ (check_rate_limit "5511999999999" 1 5 = false ↔ (1 : Int) < 5) :=
  C5_rollover "5511999999999" "oi" "2026-10-11" "2026-10-12" 5 9 5
    (by decide) (by decide) (by decide)

/-- C6: for every sender, the `/reset` command zeroes both stored counters
on the durable-store path (document existing or not) and clears the
in-memory fallback entry, reporting daily count 0 with the reset flag set —
even when the stored daily count is at or above the limit, since the reset
branch runs before the limit check. -/
theorem C6_reset_bypasses_limit (phone mensagem d today : String)
    (limit daily total c : Int)
    (hp : phone ≠ "") (hr : isResetMessage mensagem = true)
    (_hd : limit ≤ daily) (_hc : limit ≤ c) :
    save_message_count_fs phone mensagem limit (some ⟨d, daily, total⟩) today
      = (some ⟨today, 0, 0⟩, ⟨0, false, true⟩)
    ∧ save_message_count_fs phone mensagem limit none today
      = (some ⟨today, 0, 0⟩, ⟨0, false, true⟩)
    ∧ save_message_count_memory phone mensagem limit (some ⟨d, c⟩) today
      = (none, ⟨0, false, true⟩) := by
  refine ⟨?_, ?_, ?_⟩ <;>
    simp [save_message_count_fs, save_message_count_memory, save_to_firestore,
      hp, hr]

/-- C6 witness: the reset theorem at a concrete sender currently at the
limit (limit 5, stored daily 5), sending exactly "/reset". -/
theorem C6_reset_bypasses_limit_witness :
    save_message_count_fs "5511999999999" "/reset" 5
        (some ⟨"2026-10-12", 5, 9⟩) "2026-10-12"
      = (some ⟨"2026-10-12", 0, 0⟩, ⟨0, false, true⟩)
    ∧ save_message_count_fs "5511999999999" "/reset" 5 none "2026-10-12"
      = (some ⟨"2026-10-12", 0, 0⟩, ⟨0, false, true⟩)
    ∧ save_message_count_memory "5511999999999" "/reset" 5
        (some ⟨"2026-10-12", 5⟩) "2026-10-12"
      = (none, ⟨0, false, true⟩) :=
  C6_reset_bypasses_limit "5511999999999" "/reset" "2026-10-12" "2026-10-12"
    5 5 9 5 (by decide) (by decide) (by decide) (by decide)

/-- An id absent from the cache stays absent after any filtering (in
particular after the lazy cleanup). -/
lemma hasId_filter_eq_false {cache : DedupCache} {p : String × Nat → Bool}
    {msgId : String} (h : hasId cache msgId = false) :
    hasId (cache.filter p) msgId = false := by
  rw [hasId, List.any_eq_false] at h ⊢
  intro x hx
  exact h x (List.mem_of_mem_filter hx)

/-- An id absent from the cache stays absent after the lazy cleanup. -/
lemma hasId_dedupCleanup_eq_false {cache : DedupCache} {msgId : String}
    {now : Nat} (h : hasId cache msgId = false) :
    hasId (dedupCleanup cache now) msgId = false := by
  unfold dedupCleanup
  split
  · exact hasId_filter_eq_false h
  · exact h

/-- An entry appended to the cache is still found after a later cleanup,
provided it is within the TTL at that time. -/
lemma hasId_dedupCleanup_append {c0 : DedupCache} {msgId : String}
    {t now1 : Nat} (h : now1 - t ≤ DEDUP_TTL) :
    hasId (dedupCleanup (c0 ++ [(msgId, t)]) now1) msgId = true := by
  unfold dedupCleanup
  split
  · rw [List.filter_append, hasId, List.any_append]
    simp only [Bool.or_eq_true]
    refine Or.inr ?_
    rw [List.filter_cons_of_pos (by exact decide_eq_true h)]
    simp [hasId]
  · rw [hasId, List.any_append]
    simp [hasId]

/-- C7 counterexample: the same (empty) message id submitted twice is
dispatched twice, not once — `_is_duplicate` returns not-duplicate for an
empty id without registering it, refuting the claim for every message id. -/
theorem C7_counterexample :
    worker_decide [] "text" "" 0 = (.dispatch, [])
    ∧ worker_decide [] "text" "" 1 = (.dispatch, []) := by
  constructor
  · rfl
  · rfl

/-- C7 (amended): for every NONEMPTY message id not yet in the dedup cache
(and a non-ignored message type), the first worker pass registers the id and
dispatches a processing task, and a second pass over the same id within the
dedup TTL skips it as a duplicate — so the id yields exactly one dispatched
task until evicted. -/
theorem C7_dedup_idempotent (cache : DedupCache) (msgType msgId : String)
    (now now1 : Nat)
    (hid : msgId ≠ "") (htype : ignoredTypes.contains msgType = false)
    (hnew : hasId cache msgId = false) (httl : now1 - now ≤ DEDUP_TTL) :
    (worker_decide cache msgType msgId now).1 = .dispatch
    ∧ hasId (worker_decide cache msgType msgId now).2 msgId = true
    ∧ (worker_decide (worker_decide cache msgType msgId now).2 msgType msgId now1).1
        = .skipDuplicate := by
  have hclean : hasId (dedupCleanup cache now) msgId = false :=
    hasId_dedupCleanup_eq_false hnew
  have htype1 : msgType ∉ ignoredTypes := by simpa using htype
  have hfirst : worker_decide cache msgType msgId now
      = (.dispatch, dedupCleanup cache now ++ [(msgId, now)]) := by
    simp [worker_decide, is_duplicate, htype1, hid, hclean]
  refine ⟨by rw [hfirst], ?_, ?_⟩
  · rw [hfirst, hasId, List.any_append]
    simp [hasId]
  · rw [hfirst]
    have hsecond : hasId (dedupCleanup (dedupCleanup cache now ++ [(msgId, now)]) now1)
        msgId = true := hasId_dedupCleanup_append httl
    simp [worker_decide, is_duplicate, htype1, hid, hsecond]

/-- C7 witness: the amended theorem at a concrete nonempty id on an empty
cache, resubmitted 10 time units later (within the 300-unit TTL). -/
theorem C7_dedup_idempotent_witness :
    (worker_decide [] "text" "wamid.A1" 0).1 = .dispatch
    ∧ hasId (worker_decide [] "text" "wamid.A1" 0).2 "wamid.A1" = true
    ∧ (worker_decide (worker_decide [] "text" "wamid.A1" 0).2 "text" "wamid.A1" 10).1
        = .skipDuplicate :=
  C7_dedup_idempotent [] "text" "wamid.A1" 0 10
    (by decide) (by decide) (by decide) (by decide)

/-- C9: a message whose id is empty is never deduplicated — `_is_duplicate`
returns not-duplicate and leaves the cache untouched, so the worker
dispatches a processing task for every such occurrence (for any non-ignored
message type), no matter how often it is resubmitted. -/
theorem C9_empty_id_never_deduped (cache : DedupCache) (msgType : String)
    (now : Nat) (htype : ignoredTypes.contains msgType = false) :
    is_duplicate cache "" now = (false, cache)
    ∧ worker_decide cache msgType "" now = (.dispatch, cache) := by
  have htype1 : msgType ∉ ignoredTypes := by simpa using htype
  constructor
  · simp [is_duplicate]
  · simp [worker_decide, is_duplicate, htype1]

/-- C9 witness: the theorem at a concrete cache already holding another id,
with message type "text". -/
theorem C9_empty_id_never_deduped_witness :
    is_duplicate [("wamid.B2", 0)] "" 5 = (false, [("wamid.B2", 0)])
    ∧ worker_decide [("wamid.B2", 0)] "text" "" 5
        = (.dispatch, [("wamid.B2", 0)]) :=
  C9_empty_id_never_deduped [("wamid.B2", 0)] "text" 5 (by decide)

/-- A phase-2 attempt against a cleared (or expired) lock never fires, so
once some task has fired, no later task of the same burst can. -/
lemma burst_phase2_cleared :
    ∀ (toks pending : List String), (burst_phase2 ⟨none, pending⟩ toks).2 = 0 := by
  intro toks
  induction toks with
  | nil =>
    intro pending
    rfl
  | cons tok rest ih =>
    intro pending
    have h : debounce_phase2 ⟨none, pending⟩ tok = none := by
      unfold debounce_phase2
      simp
    simp [burst_phase2, h, ih]

/-- At most one of the deferred phase-2 attempts fires, from any starting
state: firing clears the lock, and a cleared lock matches no token. -/
lemma burst_phase2_le_one :
    ∀ (toks : List String) (s : SenderState), (burst_phase2 s toks).2 ≤ 1 := by
  intro toks
  induction toks with
  | nil =>
    intro s
    simp [burst_phase2]
  | cons tok rest ih =>
    intro s
    cases hh : debounce_phase2 s tok with
    | none =>
      simpa [burst_phase2, hh] using ih s
    | some pr =>
      obtain ⟨s1, batch⟩ := pr
      have hs1 : s1 = SenderState.mk none [] := by
        unfold debounce_phase2 at hh
        split at hh
        · simp only [Option.some.injEq, Prod.mk.injEq] at hh
          exact hh.1.symm
        · cases hh
      subst hs1
      have h0 : (burst_phase2 ⟨none, []⟩ rest).2 = 0 := burst_phase2_cleared rest []
      simp [burst_phase2, hh, h0]

/-- After the phase 1 of every task of a burst, the stored lock is the
LAST task's token and the pending list holds all the burst's messages in
order. -/
lemma burst_phase1_last :
    ∀ (burst : List (String × String)) (s : SenderState) (mt : String × String),
      burst.getLast? = some mt →
      burst_phase1 s burst = ⟨some mt.2, s.pending ++ burst.map Prod.fst⟩ := by
  intro burst
  induction burst with
  | nil =>
    intro s mt h
    cases h
  | cons a rest ih =>
    intro s mt h
    cases rest with
    | nil =>
      simp only [List.getLast?_singleton, Option.some.injEq] at h
      subst h
      simp [burst_phase1, debounce_phase1]
    | cons b rest2 =>
      have h2 : (b :: rest2).getLast? = some mt := by
        rwa [List.getLast?_cons_cons] at h
      have hstep : burst_phase1 s (a :: b :: rest2)
          = burst_phase1 (debounce_phase1 s a.1 a.2) (b :: rest2) := rfl
      rw [hstep, ih (debounce_phase1 s a.1 a.2) mt h2]
      simp [debounce_phase1]

/-- C8: the debounce token protocol.  A deferred task whose token no longer
matches the stored lock after its sleep exits without firing; a task whose
token still matches clears the lock and drains the whole pending list; from
any state, at most one of a burst's deferred tasks fires; and after a
burst's phase 1 steps the stored lock is the last task's token while the
pending list preserves every message of the burst. -/
theorem C8_debounce_token_protocol (s : SenderState) (tok : String)
    (toks : List String) (burst : List (String × String)) (mt : String × String) :
    (s.lock ≠ some tok → debounce_phase2 s tok = none)
    ∧ (s.lock = some tok →
        debounce_phase2 s tok = some (⟨none, []⟩, s.pending))
    ∧ (burst_phase2 s toks).2 ≤ 1
    ∧ (burst.getLast? = some mt →
        burst_phase1 s burst = ⟨some mt.2, s.pending ++ burst.map Prod.fst⟩) := by
  refine ⟨?_, ?_, burst_phase2_le_one toks s, fun h => burst_phase1_last burst s mt h⟩
  · intro h
    unfold debounce_phase2
    rw [if_neg h]
  · intro h
    unfold debounce_phase2
    rw [if_pos h]

/-- C8 witness: the protocol theorem at a concrete two-message burst —
the stale token "t1" does not fire, the current token "t2" drains both
pending messages, any sequence of attempts fires at most once, and phase 1
of the burst leaves lock "t2" with both messages pending. -/
theorem C8_debounce_token_protocol_witness :
    debounce_phase2 ⟨some "t2", ["m1"]⟩ "t1" = none
    ∧ debounce_phase2 ⟨some "t2", ["m1", "m2"]⟩ "t2"
        = some (⟨none, []⟩, ["m1", "m2"])
    ∧ (burst_phase2 ⟨some "t2", ["m1", "m2"]⟩ ["t1", "t2"]).2 ≤ 1
    ∧ burst_phase1 ⟨none, []⟩ [("m1", "t1"), ("m2", "t2")]
        = ⟨some "t2", ["m1", "m2"]⟩ :=
  ⟨(C8_debounce_token_protocol ⟨some "t2", ["m1"]⟩ "t1" [] [] ("m", "t")).1
      (by decide),
   (C8_debounce_token_protocol ⟨some "t2", ["m1", "m2"]⟩ "t2" [] [] ("m", "t")).2.1
      rfl,
   (C8_debounce_token_protocol ⟨some "t2", ["m1", "m2"]⟩ "x" ["t1", "t2"] []
      ("m", "t")).2.2.1,
   (C8_debounce_token_protocol ⟨none, []⟩ "x" [] [("m1", "t1"), ("m2", "t2")]
      ("m2", "t2")).2.2.2 (by decide)⟩

end WhatsAppBot
